import Mathlib

/-!
# Verification of the protocol liveness-testing engine (`src/tester.py`)

This file gives a shallow embedding of the liveness-testing core of the
repository (`tester.py`): the four protocol probe functions
`test_vless_link`, `test_vmess_link`, `test_trojan_link`, `test_ss_link`
and the orchestrator `test_links_ping`, together with models of the
Python standard-library routines they call (`urllib.parse.urlparse`,
`urllib.parse.parse_qs`, `base64.b64decode`, `json.loads`, `uuid.UUID`,
`socket` and `ssl` operations).

Modelling conventions:

* Network and timing effects are captured by a `NetEnv` record: a DNS
  oracle plus one outcome (`Except Exc Nat`) per blocking socket stage
  (TCP connect, TLS handshake, send, recv).  A successful stage carries
  its wall-clock duration in milliseconds; `time.time()` differences are
  modelled as the sum of the stage durations between the two reads.
  `socket.settimeout` semantics are expressed by the predicate
  `wellTimed`: each individual blocking stage either completes within
  the timeout budget or raises.
* Python exceptions are the inductive `Exc`; an exception's `str(e)`
  text is the carried message.  The exception-class hierarchy matters
  only where the code's `except` clauses distinguish classes, and is
  captured by `isOSErrorExc` (`ConnectionRefusedError`, `ssl.SSLError`
  and `socket.gaierror` are `OSError` subclasses; `binascii.Error` and
  `json.JSONDecodeError` are `ValueError` subclasses).
* Machine-level byte strings are `List Nat` with each element `< 256`.
* Threading is not modelled; `asyncio.gather` preserves task order, so
  the orchestrator is the order-preserving map it performs per protocol.
  Each probe invocation draws its own `NetEnv` from an oracle indexed by
  protocol tag and link.
-/

/-- Model of the Python exceptions that can be raised inside a probe's
`try` block.  Each constructor carries the `str(e)` message text that the
code interpolates into its error strings (OS/library message texts are
modelled representatively). -/
inductive Exc where
  | timeoutE : Exc
  | connRefused (msg : String) : Exc
  | osError (msg : String) : Exc
  | sslError (msg : String) : Exc
  | overflowError (msg : String) : Exc
  | valueError (msg : String) : Exc
  | jsonError (msg : String) : Exc
  | binasciiError (msg : String) : Exc
  | typeError (msg : String) : Exc
  | attrError (msg : String) : Exc
  | indexError (msg : String) : Exc
deriving DecidableEq, Repr

/-- `str(e)` for the modelled exceptions. -/
def excStr : Exc → String
  | .timeoutE => "timed out"
  | .connRefused m => m
  | .osError m => m
  | .sslError m => m
  | .overflowError m => m
  | .valueError m => m
  | .jsonError m => m
  | .binasciiError m => m
  | .typeError m => m
  | .attrError m => m
  | .indexError m => m

/-- Propositional equality on `Except` values is decidable when it is
on both components (used to evaluate probe outcomes on concrete
inputs). -/
instance {α β : Type} [DecidableEq α] [DecidableEq β] : DecidableEq (Except α β) := fun a b =>
  match a, b with
  | .ok x, .ok y =>
      if h : x = y then isTrue (by rw [h]) else isFalse (fun hc => by cases hc; exact h rfl)
  | .error x, .error y =>
      if h : x = y then isTrue (by rw [h]) else isFalse (fun hc => by cases hc; exact h rfl)
  | .ok _, .error _ => isFalse (fun hc => by cases hc)
  | .error _, .ok _ => isFalse (fun hc => by cases hc)

/-- Whether the exception is an `OSError` (so caught by an
`except (ConnectionRefusedError, OSError)` clause).  `ssl.SSLError` is an
`OSError` subclass.  `socket.timeout` is also an `OSError` subclass, but
every probe lists its `except socket.timeout` clause first, so the
handlers below always match `.timeoutE` before consulting this. -/
def isOSErrorExc : Exc → Bool
  | .timeoutE => true
  | .connRefused _ => true
  | .osError _ => true
  | .sslError _ => true
  | _ => false

/-- The result dictionary built by each probe:
`{"link": .., "status": .., "ping_ms": .., "error": ..}`. -/
structure ProbeResult where
  link : String
  status : String
  ping_ms : Option Nat
  error : Option String
deriving DecidableEq, Repr

/-- A terminal `dead` result carrying a failure reason. -/
def mkDead (link msg : String) : ProbeResult :=
  { link := link, status := "dead", ping_ms := none, error := some msg }

/-- A terminal `alive` result carrying the measured latency. -/
def mkAlive (link : String) (ping : Nat) : ProbeResult :=
  { link := link, status := "alive", ping_ms := some ping, error := none }

/-- One probe invocation's view of the outside world: a DNS oracle
(`none` models `socket.gaierror`), and an outcome per blocking socket
stage.  `.ok d` means the stage completed after `d` milliseconds;
`.error e` means it raised `e`. -/
structure NetEnv where
  dns : String → Option String
  connect : Except Exc Nat
  tls : Except Exc Nat
  send : Except Exc Nat
  recv : Except Exc Nat

/-- A stage outcome respects a millisecond budget when any successful
completion took at most that long. -/
def stageWithin (o : Except Exc Nat) (budget : Nat) : Bool :=
  match o with
  | .ok d => d ≤ budget
  | .error _ => true

/-- `socket.settimeout(timeout)` semantics: each individual blocking
stage either raises or completes within `timeout` seconds. -/
def wellTimed (env : NetEnv) (timeout : Nat) : Bool :=
  stageWithin env.connect (timeout * 1000) && stageWithin env.tls (timeout * 1000) &&
    stageWithin env.send (timeout * 1000) && stageWithin env.recv (timeout * 1000)

/- ## Character and string helpers (ASCII-level models of `str` methods) -/

def isAsciiDigit (c : Char) : Bool := 48 ≤ c.toNat && c.toNat ≤ 57

def isAsciiAlpha (c : Char) : Bool :=
  (65 ≤ c.toNat && c.toNat ≤ 90) || (97 ≤ c.toNat && c.toNat ≤ 122)

def isHexDigitChar (c : Char) : Bool :=
  isAsciiDigit c || (97 ≤ c.toNat && c.toNat ≤ 102) || (65 ≤ c.toNat && c.toNat ≤ 70)

def hexVal (c : Char) : Nat :=
  if isAsciiDigit c then c.toNat - 48
  else if 97 ≤ c.toNat && c.toNat ≤ 102 then c.toNat - 87
  else if 65 ≤ c.toNat && c.toNat ≤ 70 then c.toNat - 55
  else 0

/-- ASCII `str.lower` (the hostnames in these links are ASCII; full
Unicode case mapping is immaterial here). -/
def asciiLower (c : Char) : Char :=
  if 65 ≤ c.toNat && c.toNat ≤ 90 then Char.ofNat (c.toNat + 32) else c

def digitsToNat (cs : List Char) : Nat :=
  cs.foldl (fun acc c => acc * 10 + (c.toNat - 48)) 0

/-- Does `pat` occur as a leading segment of `l`? -/
def listStartsWith (pat l : List Char) : Bool :=
  match pat, l with
  | [], _ => true
  | _ :: _, [] => false
  | p :: ps, c :: cs => p == c && listStartsWith ps cs

/-- Split a list at the first occurrence of `ch`, returning the pieces
before and after it, or `none` when absent. -/
def splitAtFirstChar (ch : Char) : List Char → Option (List Char × List Char)
  | [] => none
  | c :: rest =>
      if c == ch then some ([], rest)
      else match splitAtFirstChar ch rest with
        | none => none
        | some (before, after) => some (c :: before, after)

/-- Split a list at the last occurrence of `ch` (Python `rpartition`),
returning the pieces before and after it, or `none` when absent. -/
def splitAtLastChar (ch : Char) (cs : List Char) : Option (List Char × List Char) :=
  if cs.contains ch then
    let r := cs.reverse
    some (((r.dropWhile (fun c => c != ch)).drop 1).reverse, (r.takeWhile (fun c => c != ch)).reverse)
  else none

/-- Split on every occurrence of `ch` (like `str.split(ch)`). -/
def splitOnChar (ch : Char) : List Char → List (List Char)
  | [] => [[]]
  | c :: rest =>
      let r := splitOnChar ch rest
      if c == ch then [] :: r
      else
        match r with
        | [] => [[c]]
        | g :: gs => (c :: g) :: gs

/-- The characters after the first occurrence of the segment `pat`
(`s.split(pat, 1)[1]`); `none` when `pat` does not occur. -/
def splitAfterFirstSeq (pat : List Char) : List Char → Option (List Char)
  | [] => none
  | c :: rest =>
      if listStartsWith pat (c :: rest) then some (List.drop pat.length (c :: rest))
      else splitAfterFirstSeq pat rest

/-- `int(s, 10)` on a stripped decimal literal: optional sign and a
non-empty digit run (the underscore-separator tolerance of Python's
`int` is immaterial to these links and not modelled). -/
def pyIntOfChars (cs0 : List Char) : Except Exc Int :=
  let cs := (((cs0.dropWhile (fun c => c == ' ')).reverse.dropWhile (fun c => c == ' ')).reverse)
  match cs with
  | '+' :: ds =>
      if ds ≠ [] ∧ ds.all isAsciiDigit then .ok (digitsToNat ds)
      else .error (.valueError "invalid literal for int() with base 10")
  | '-' :: ds =>
      if ds ≠ [] ∧ ds.all isAsciiDigit then .ok (-(digitsToNat ds : Int))
      else .error (.valueError "invalid literal for int() with base 10")
  | ds =>
      if ds ≠ [] ∧ ds.all isAsciiDigit then .ok (digitsToNat ds)
      else .error (.valueError "invalid literal for int() with base 10")

/- ## `urllib.parse.urlparse` model -/

/-- The components of a parsed URL that `tester.py` reads.  `username`,
`hostname` and `port` are derived from `netloc` below, exactly as the
`urllib.parse` properties derive them. -/
structure UrlParsed where
  scheme : String
  netloc : String
  query : String
deriving DecidableEq, Repr

def schemeCharOk (c : Char) : Bool :=
  isAsciiAlpha c || isAsciiDigit c || c == '+' || c == '-' || c == '.'

/-- `urllib.parse.urlsplit`: peel a `scheme:` when the text before the
first colon is a valid scheme, then a `//netloc` up to the first of
`/?#`, then drop the fragment (after the first `#`) and keep the query
(after the first `?`). -/
def urlparse (url : String) : UrlParsed :=
  let cs := url.data
  let (scheme, rest) :=
    match splitAtFirstChar ':' cs with
    | some (before, after) =>
        if before ≠ [] && (isAsciiAlpha (before.headD ' ')) && before.all schemeCharOk then
          (before.map asciiLower, after)
        else ([], cs)
    | none => ([], cs)
  let (netloc, rest2) :=
    if listStartsWith ['/', '/'] rest then
      let body := rest.drop 2
      (body.takeWhile (fun c => c != '/' && c != '?' && c != '#'),
       body.dropWhile (fun c => c != '/' && c != '?' && c != '#'))
    else ([], rest)
  let beforeFrag := rest2.takeWhile (fun c => c != '#')
  let query := (beforeFrag.dropWhile (fun c => c != '?')).drop 1
  { scheme := String.mk scheme, netloc := String.mk netloc, query := String.mk query }

/-- `ParseResult.username`: the text of the userinfo (before the last
`@` of the netloc) up to its first `:`; `None` when the netloc has no
`@`. -/
def uplUsername (u : UrlParsed) : Option String :=
  match splitAtLastChar '@' u.netloc.data with
  | none => none
  | some (userinfo, _) => some (String.mk (userinfo.takeWhile (fun c => c != ':')))

/-- The host-and-port text of the netloc: everything after the last `@`. -/
def uplHostinfo (u : UrlParsed) : List Char :=
  match splitAtLastChar '@' u.netloc.data with
  | none => u.netloc.data
  | some (_, hostinfo) => hostinfo

/-- `ParseResult.hostname`: the lowercased host part of the hostinfo
(bracketed IPv6 literals lose their brackets), `None` when empty. -/
def uplHostname (u : UrlParsed) : Option String :=
  let hostinfo := uplHostinfo u
  let host :=
    match hostinfo with
    | '[' :: rest => rest.takeWhile (fun c => c != ']')
    | _ => hostinfo.takeWhile (fun c => c != ':')
  if host.isEmpty then none else some (String.mk (host.map asciiLower))

/-- `ParseResult.port`: the digits after the host's colon, as an
integer in `0..65535`; `None` when absent; raises `ValueError` when
malformed or out of range (as the property does when accessed). -/
def uplPort (u : UrlParsed) : Except Exc (Option Nat) :=
  let hostinfo := uplHostinfo u
  let portStr :=
    match hostinfo with
    | '[' :: rest =>
        match splitAtFirstChar ']' rest with
        | some (_, after) =>
            (match splitAtFirstChar ':' after with
             | some (_, p) => some p
             | none => none)
        | none => none
    | _ =>
        match splitAtFirstChar ':' hostinfo with
        | some (_, p) => some p
        | none => none
  match portStr with
  | none => .ok none
  | some p =>
      if p.isEmpty then .ok none
      else
        match pyIntOfChars p with
        | .error _ => .error (.valueError "Port could not be cast to integer value")
        | .ok n =>
            if 0 ≤ n ∧ n ≤ 65535 then .ok (some n.toNat)
            else .error (.valueError "Port out of range 0-65535")

/- ## `urllib.parse.parse_qs` model -/

/-- `urllib.parse.unquote_plus` at the byte level: `+` becomes a space
and `%XY` becomes the character of that byte (multi-byte percent-encoded
UTF-8 sequences are modelled per byte; the query values these probes
read — `security`, `sni` — never use them). -/
def unquotePlus : List Char → List Char
  | [] => []
  | '+' :: rest => ' ' :: unquotePlus rest
  | '%' :: h1 :: h2 :: rest =>
      if isHexDigitChar h1 && isHexDigitChar h2 then
        Char.ofNat (hexVal h1 * 16 + hexVal h2) :: unquotePlus rest
      else '%' :: unquotePlus (h1 :: h2 :: rest)
  | c :: rest => c :: unquotePlus rest

/-- Append one `key=value` pair to the accumulated multi-dict,
preserving first-seen key order and appending to an existing key's value
list (how `parse_qs` merges `parse_qsl` pairs). -/
def qsInsert (acc : List (String × List String)) (k v : String) : List (String × List String) :=
  match acc with
  | [] => [(k, [v])]
  | (k0, vs) :: rest =>
      if k0 == k then (k0, vs ++ [v]) :: rest
      else (k0, vs) :: qsInsert rest k v

/-- `urllib.parse.parse_qs` with its defaults: split the query on `&`,
keep only chunks containing `=` (blank values are dropped), unquote both
sides, and merge values per key.  Every value list produced is
non-empty. -/
def parse_qs (query : String) : List (String × List String) :=
  let chunks := splitOnChar '&' query.data
  let pairs := chunks.filterMap fun chunk =>
    match splitAtFirstChar '=' chunk with
    | none => none
    | some (k, v) =>
        if v.isEmpty then none
        else some (String.mk (unquotePlus k), String.mk (unquotePlus v))
  pairs.foldl (fun acc p => qsInsert acc p.1 p.2) []

/-- `parse_qs_safely` from `tester.py`: a `try`/`except` wrapper; the
modelled `parse_qs` is total, so the handler is never taken. -/
def parse_qs_safely (query : String) : List (String × List String) := parse_qs query

/-- `params.get(key, [dflt])[0]` for a string default. -/
def qsGet1 (params : List (String × List String)) (key dflt : String) : String :=
  match List.lookup key params with
  | some (v :: _) => v
  | _ => dflt

/-- `params.get('sni', [server])[0]` where the default is the (optional)
hostname. -/
def qsGetSni (params : List (String × List String)) (server : Option String) : Option String :=
  match List.lookup "sni" params with
  | some (v :: _) => some v
  | _ => server

/- ## `base64` model -/

/-- Bytes to base64 sextet values, 3 bytes to 4 sextets, with the
shortened final group of a non-multiple-of-3 input. -/
def bytesToSextets : List Nat → List Nat
  | [] => []
  | [a] => [a / 4, (a % 4) * 16]
  | [a, b] => [a / 4, (a % 4) * 16 + b / 16, (b % 16) * 4]
  | a :: b :: c :: rest =>
      (a / 4) :: ((a % 4) * 16 + b / 16) :: ((b % 16) * 4 + c / 64) :: (c % 64) ::
        bytesToSextets rest

/-- Base64 sextet values back to bytes; a leftover single sextet cannot
arise from a well-padded input and yields nothing. -/
def sextetsToBytes : List Nat → List Nat
  | [] => []
  | [_] => []
  | [s1, s2] => [s1 * 4 + s2 / 16]
  | [s1, s2, s3] => [s1 * 4 + s2 / 16, (s2 % 16) * 16 + s3 / 4]
  | s1 :: s2 :: s3 :: s4 :: rest =>
      (s1 * 4 + s2 / 16) :: ((s2 % 16) * 16 + s3 / 4) :: ((s3 % 4) * 64 + s4) ::
        sextetsToBytes rest

/-- The standard base64 alphabet, char of a sextet value. -/
def sextetToChar (n : Nat) : Char :=
  if n < 26 then Char.ofNat (n + 65)
  else if n < 52 then Char.ofNat (n + 71)
  else if n < 62 then Char.ofNat (n - 4)
  else if n = 62 then '+' else '/'

/-- The standard base64 alphabet, sextet value of a char (`none` for a
char outside the alphabet). -/
def charToSextet (c : Char) : Option Nat :=
  let n := c.toNat
  if 65 ≤ n && n ≤ 90 then some (n - 65)
  else if 97 ≤ n && n ≤ 122 then some (n - 71)
  else if 48 ≤ n && n ≤ 57 then some (n + 4)
  else if n = 43 then some 62
  else if n = 47 then some 63
  else none

def isB64Char (c : Char) : Bool := (charToSextet c).isSome

/-- `base64.b64decode` with `validate=False` (the call the code makes):
characters outside the standard alphabet are discarded, then the kept
characters must form complete padded quads.  Modelled exactly for inputs
whose `=` occur only as trailing padding — the shape of every input the
code ever constructs (it appends `'=' * (-len % 4)` itself). -/
def pyB64Decode (s : String) : Except Exc (List Nat) :=
  let kept := s.data.filter (fun c => isB64Char c || c == '=')
  let data := kept.takeWhile (fun c => c != '=')
  if kept.length % 4 != 0 || data.length % 4 == 1 then
    .error (.binasciiError "Invalid base64-encoded string")
  else .ok (sextetsToBytes (data.map (fun c => (charToSextet c).getD 0)))

/-- Reference construction: unpadded standard-alphabet base64 of a byte
string (what a feed producer emits before the code re-pads it). -/
def b64EncodeNoPad (bs : List Nat) : List Char :=
  (bytesToSextets bs).map sextetToChar

/-- The URL-safe base64 alphabet, char of a sextet value (`-` and `_`
replace `+` and `/`). -/
def urlsafeSextetToChar (n : Nat) : Char :=
  if n = 62 then '-' else if n = 63 then '_' else sextetToChar n

/-- The URL-safe base64 alphabet, sextet value of a char. -/
def urlsafeCharToSextet (c : Char) : Option Nat :=
  if c == '-' then some 62
  else if c == '_' then some 63
  else if c == '+' || c == '/' then none
  else charToSextet c

/-- Reference construction: unpadded URL-safe base64 of a byte string. -/
def urlsafeEncodeNoPad (bs : List Nat) : List Char :=
  (bytesToSextets bs).map urlsafeSextetToChar

/-- Decoder following the spec's words for the Protocol B payload:
"base64 (URL-safe alphabet tolerant of missing padding)" — every char
from the URL-safe alphabet, padding optional.  Stated for comparison
with the code's decoder. -/
def specUrlsafeB64Decode (s : String) : Option (List Nat) :=
  let data := s.data
  if data.all (fun c => (urlsafeCharToSextet c).isSome) && data.length % 4 != 1 then
    some (sextetsToBytes (data.map (fun c => (urlsafeCharToSextet c).getD 0)))
  else none

/- ## UTF-8 model -/

/-- UTF-8 encoding of one scalar value (`str.encode('utf-8')`
per character). -/
def charUtf8 (c : Char) : List Nat :=
  let n := c.toNat
  if n < 128 then [n]
  else if n < 2048 then [192 + n / 64, 128 + n % 64]
  else if n < 65536 then [224 + n / 4096, 128 + (n / 64) % 64, 128 + n % 64]
  else [240 + n / 262144, 128 + (n / 4096) % 64, 128 + (n / 64) % 64, 128 + n % 64]

/-- `str.encode('utf-8')`. -/
def strUtf8 (s : String) : List Nat := s.data.flatMap charUtf8

def isContByte (b : Nat) : Bool := 128 ≤ b && b < 192

/-- Fuel-driven worker for `utf8DecodeIgnore`; the fuel dominates the
input length, so it never runs out on the wrapper's call. -/
def utf8DecodeIgnoreFuel : Nat → List Nat → List Char
  | 0, _ => []
  | _ + 1, [] => []
  | fuel + 1, b :: rest =>
    if b < 128 then Char.ofNat b :: utf8DecodeIgnoreFuel fuel rest
    else if b < 194 then utf8DecodeIgnoreFuel fuel rest
    else if b < 224 then
      match rest with
      | b1 :: rest1 =>
          if isContByte b1 then
            Char.ofNat ((b - 192) * 64 + (b1 - 128)) :: utf8DecodeIgnoreFuel fuel rest1
          else utf8DecodeIgnoreFuel fuel rest
      | [] => []
    else if b < 240 then
      match rest with
      | b1 :: b2 :: rest2 =>
          if isContByte b1 && isContByte b2 then
            let n := (b - 224) * 4096 + (b1 - 128) * 64 + (b2 - 128)
            if 55296 ≤ n && n < 57344 then utf8DecodeIgnoreFuel fuel rest2
            else Char.ofNat n :: utf8DecodeIgnoreFuel fuel rest2
          else utf8DecodeIgnoreFuel fuel rest
      | _ => []
    else if b < 245 then
      match rest with
      | b1 :: b2 :: b3 :: rest3 =>
          if isContByte b1 && isContByte b2 && isContByte b3 then
            Char.ofNat ((b - 240) * 262144 + (b1 - 128) * 4096 + (b2 - 128) * 64 + (b3 - 128)) ::
              utf8DecodeIgnoreFuel fuel rest3
          else utf8DecodeIgnoreFuel fuel rest
      | _ => []
    else utf8DecodeIgnoreFuel fuel rest

/-- `bytes.decode('utf-8', errors='ignore')`: decode well-formed
sequences, drop ill-formed bytes.  Surrogate and overlong rejection is
modelled at the precision these claims need (the probe payloads are
ASCII). -/
def utf8DecodeIgnore (bs : List Nat) : List Char :=
  utf8DecodeIgnoreFuel bs.length bs

/- ## `json.loads` model -/

/-- JSON values as `json.loads` produces them, with numbers restricted
to integers (the VMess configs the code reads carry string or integer
fields; fractional numbers are immaterial to these claims). -/
inductive Jv where
  | str : String → Jv
  | num : Int → Jv
  | jbool : Bool → Jv
  | null : Jv
  | arr : List Jv → Jv
  | obj : List (String × Jv) → Jv
deriving Repr

def jsonWs (c : Char) : Bool := c == ' ' || c == '\t' || c == '\n' || c == '\r'

def skipJsonWs (cs : List Char) : List Char := cs.dropWhile jsonWs

def lbraceChar : Char := Char.ofNat 123

def rbraceChar : Char := Char.ofNat 125

/-- Body of a JSON string after the opening quote: contents and the
remainder after the closing quote. -/
def jsonStrBody (fuel : Nat) (acc : List Char) (cs : List Char) : Option (String × List Char) :=
  match fuel with
  | 0 => none
  | fuel + 1 =>
    match cs with
    | [] => none
    | '"' :: rest => some (String.mk acc.reverse, rest)
    | '\\' :: e :: rest =>
        if e == '"' || e == '\\' || e == '/' then jsonStrBody fuel (e :: acc) rest
        else if e == 'b' then jsonStrBody fuel (Char.ofNat 8 :: acc) rest
        else if e == 'f' then jsonStrBody fuel (Char.ofNat 12 :: acc) rest
        else if e == 'n' then jsonStrBody fuel ('\n' :: acc) rest
        else if e == 'r' then jsonStrBody fuel ('\r' :: acc) rest
        else if e == 't' then jsonStrBody fuel ('\t' :: acc) rest
        else if e == 'u' then
          match rest with
          | h1 :: h2 :: h3 :: h4 :: rest4 =>
              if isHexDigitChar h1 && isHexDigitChar h2 && isHexDigitChar h3 && isHexDigitChar h4 then
                jsonStrBody fuel
                  (Char.ofNat (hexVal h1 * 4096 + hexVal h2 * 256 + hexVal h3 * 16 + hexVal h4) :: acc) rest4
              else none
          | _ => none
        else none
    | c :: rest => if c.toNat ≥ 32 then jsonStrBody fuel (c :: acc) rest else none

/-- A JSON integer literal at the head of the input: optional minus,
then either a lone `0` or a non-zero-led digit run. -/
def jsonNumber (cs : List Char) : Option (Int × List Char) :=
  let (neg, body) :=
    match cs with
    | '-' :: rest => (true, rest)
    | _ => (false, cs)
  let ds := body.takeWhile isAsciiDigit
  if ds.isEmpty then none
  else if ds.length > 1 && ds.headD '0' == '0' then none
  else
    let rest := body.drop ds.length
    let v : Int := digitsToNat ds
    some (if neg then -v else v, rest)

mutual

/-- One JSON value at the head of the input (after whitespace). -/
def jsonValue (fuel : Nat) (cs : List Char) : Option (Jv × List Char) :=
  match fuel with
  | 0 => none
  | fuel + 1 =>
    match skipJsonWs cs with
    | [] => none
    | c :: rest =>
        if c == '"' then
          match jsonStrBody (c :: rest).length [] rest with
          | some (s, rest2) => some (.str s, rest2)
          | none => none
        else if c == lbraceChar then jsonObjBody fuel rest true
        else if c == '[' then jsonArrBody fuel rest true
        else if listStartsWith ['t', 'r', 'u', 'e'] (c :: rest) then
          some (.jbool true, (c :: rest).drop 4)
        else if listStartsWith ['f', 'a', 'l', 's', 'e'] (c :: rest) then
          some (.jbool false, (c :: rest).drop 5)
        else if listStartsWith ['n', 'u', 'l', 'l'] (c :: rest) then
          some (.null, (c :: rest).drop 4)
        else
          match jsonNumber (c :: rest) with
          | some (n, rest2) => some (.num n, rest2)
          | none => none

/-- Members of a JSON object after the opening brace; `first` marks
that no member has been read yet. -/
def jsonObjBody (fuel : Nat) (cs : List Char) (first : Bool) : Option (Jv × List Char) :=
  match fuel with
  | 0 => none
  | fuel + 1 =>
    match skipJsonWs cs with
    | [] => none
    | c :: rest =>
        if c == rbraceChar && first then some (.obj [], rest)
        else
          let body := if first then c :: rest else
            if c == ',' then rest else []
          if ¬ first && c == rbraceChar then some (.obj [], rest)
          else
            match skipJsonWs body with
            | '"' :: krest =>
                match jsonStrBody ('"' :: krest).length [] krest with
                | some (k, afterK) =>
                    match skipJsonWs afterK with
                    | ':' :: afterColon =>
                        match jsonValue fuel afterColon with
                        | some (v, afterV) =>
                            match jsonObjBody fuel afterV false with
                            | some (.obj kvs, rest2) => some (.obj ((k, v) :: kvs), rest2)
                            | _ => none
                        | none => none
                    | _ => none
                | none => none
            | _ => none

/-- Items of a JSON array after the opening bracket. -/
def jsonArrBody (fuel : Nat) (cs : List Char) (first : Bool) : Option (Jv × List Char) :=
  match fuel with
  | 0 => none
  | fuel + 1 =>
    match skipJsonWs cs with
    | [] => none
    | c :: rest =>
        if c == ']' && first then some (.arr [], rest)
        else if ¬ first && c == ']' then some (.arr [], rest)
        else
          let body := if first then c :: rest else
            if c == ',' then rest else []
          match jsonValue fuel body with
          | some (v, afterV) =>
              match jsonArrBody fuel afterV false with
              | some (.arr vs, rest2) => some (.arr (v :: vs), rest2)
              | _ => none
          | none => none

end

/-- `json.loads`: parse one value and require only whitespace after it. -/
def jsonParse (s : String) : Option Jv :=
  match jsonValue (s.data.length + 2) s.data with
  | some (v, rest) => if (skipJsonWs rest).isEmpty then some v else none
  | none => none

/-- Python `dict` built by `json.loads` from (possibly repeated) keys:
`get` returns the last binding for a key. -/
def pyDictGet (kvs : List (String × Jv)) (k : String) : Option Jv :=
  match kvs with
  | [] => none
  | (k0, v) :: rest =>
      match pyDictGet rest k with
      | some r => some r
      | none => if k0 == k then some v else none

/-- `config.get(k, dflt)`. -/
def pyDictGetD (kvs : List (String × Jv)) (k : String) (dflt : Jv) : Jv :=
  match pyDictGet kvs k with
  | some v => v
  | none => dflt

/-- Python `int(x)` on a JSON-derived value: ints pass through, bools
coerce, strings parse as stripped decimal literals, everything else
raises. -/
def pyInt : Jv → Except Exc Int
  | .num n => .ok n
  | .jbool b => .ok (if b then 1 else 0)
  | .str s => pyIntOfChars s.data
  | .null => .error (.typeError "int() argument must be a string, a bytes-like object or a real number, not NoneType")
  | .arr _ => .error (.typeError "int() argument must be a string, a bytes-like object or a real number, not list")
  | .obj _ => .error (.typeError "int() argument must be a string, a bytes-like object or a real number, not dict")

/- ## `uuid.UUID` model -/

/-- Remove every occurrence of `urn:` (as `str.replace` does). -/
def stripUrnSeq : List Char → List Char
  | 'u' :: 'r' :: 'n' :: ':' :: rest => stripUrnSeq rest
  | c :: rest => c :: stripUrnSeq rest
  | [] => []

/-- Remove every occurrence of `uuid:`. -/
def stripUuidSeq : List Char → List Char
  | 'u' :: 'u' :: 'i' :: 'd' :: ':' :: rest => stripUuidSeq rest
  | c :: rest => c :: stripUuidSeq rest
  | [] => []

/-- `str.strip` with a brace character set. -/
def stripBraces (cs : List Char) : List Char :=
  let isBrace := fun c => c == lbraceChar || c == rbraceChar
  ((cs.dropWhile isBrace).reverse.dropWhile isBrace).reverse

/-- Pairs of hex digits to bytes. -/
def hexPairsToBytes : List Char → List Nat
  | h1 :: h2 :: rest => (hexVal h1 * 16 + hexVal h2) :: hexPairsToBytes rest
  | _ => []

/-- `uuid.UUID(hex).bytes`: normalise the text (`urn:`/`uuid:` removal,
brace strip, hyphen removal), require 32 hex digits, and produce the
16-byte big-endian form.  `uuid.UUID(None)` raises `TypeError`. -/
def pyUUID : Option String → Except Exc (List Nat)
  | none => .error (.typeError "one of the hex, bytes, bytes_le, fields, or int arguments must be given")
  | some h =>
      let cleaned := (stripBraces (stripUuidSeq (stripUrnSeq h.data))).filter (fun c => c != '-')
      if cleaned.length == 32 && cleaned.all isHexDigitChar then .ok (hexPairsToBytes cleaned)
      else .error (.valueError "badly formed hexadecimal UUID string")

/- ## `ipaddress` / `socket` resolution model -/

/-- `ipaddress.ip_address` acceptance of an IPv4 dotted quad: four
decimal octets, each 1-3 digits, no leading zeros, value at most 255. -/
def isIpv4Literal (s : String) : Bool :=
  let parts := splitOnChar '.' s.data
  parts.length == 4 && parts.all fun p =>
    p ≠ [] && p.length ≤ 3 && p.all isAsciiDigit && digitsToNat p ≤ 255 &&
      (p.length == 1 || p.headD '0' != '0')

/-- Approximate acceptance of an IPv6 literal (hex groups and colons);
none of the claims touch IPv6 parsing corner cases. -/
def isIpv6Literal (s : String) : Bool :=
  s.data.contains ':' && s.data ≠ [] &&
    s.data.all (fun c => isHexDigitChar c || c == ':' || c == '.')

def pyIpLiteral (s : String) : Bool := isIpv4Literal s || isIpv6Literal s

/-- `resolve_domain` from `tester.py`: an IP literal is returned
unchanged; otherwise one forward lookup whose failure (`gaierror`)
collapses to `None`.  `resolve_domain(None)` reaches
`socket.gethostbyname(None)`, which raises `TypeError`
(`ipaddress.ip_address(None)`'s `ValueError` is caught locally). -/
def resolve_domain (env : NetEnv) (domain : Option String) : Except Exc (Option String) :=
  match domain with
  | none => .error (.typeError "str, bytes or bytearray expected, not NoneType")
  | some d => if pyIpLiteral d then .ok (some d) else .ok (env.dns d)

/-- Python truthiness test `if not ip:` on an optional string. -/
def pyFalsyStrOpt : Option String → Bool
  | none => true
  | some s => s == ""

/-- f-string rendering of the optional hostname. -/
def pyShowOptStr : Option String → String
  | none => "None"
  | some s => s

/- ## Binary packing helpers -/

/-- `struct.pack('>H', n)`. -/
def pack16be (n : Nat) : List Nat := [n / 256 % 256, n % 256]

def hexDigitChar (n : Nat) : Char :=
  if n < 10 then Char.ofNat (n + 48) else Char.ofNat (n + 87)

/-- `bytes.hex()`: lowercase hex, two digits per byte. -/
def bytesHex (bs : List Nat) : List Char :=
  bs.flatMap (fun b => [hexDigitChar (b / 16 % 16), hexDigitChar (b % 16)])

/- ## `re` models for the two patterns in `test_ss_link` -/

/-- `re.search(r'ss://([^#]*)', link)`: the capture after the first
occurrence of `ss://`, running to the first `#`; `none` when the
scheme text never occurs. -/
def ssSchemeSearch : List Char → Option (List Char)
  | [] => none
  | c :: rest =>
      if listStartsWith ['s', 's', ':', '/', '/'] (c :: rest) then
        some (((c :: rest).drop 5).takeWhile (fun c2 => c2 != '#'))
      else ssSchemeSearch rest

/-- One anchored attempt of `([^:]+):(\d+)`: a non-empty colon-free run,
a colon, then a non-empty digit run. -/
def ssTryAt (cs : List Char) : Option (List Char × List Char) :=
  let run := cs.takeWhile (fun c => c != ':')
  if run.isEmpty then none
  else
    match cs.drop run.length with
    | ':' :: after =>
        let ds := after.takeWhile isAsciiDigit
        if ds.isEmpty then none else some (run, ds)
    | _ => none

/-- `re.search(r'@?([^:]+):(\d+)', s)`: leftmost match; at each
position the optional `@` is consumed first when present. -/
def ssHostPortSearch : List Char → Option (List Char × List Char)
  | [] => none
  | c :: rest =>
      match (if c == '@' then ssTryAt rest else none) with
      | some r => some r
      | none =>
          match ssTryAt (c :: rest) with
          | some r => some r
          | none => ssHostPortSearch rest

/- ## The four protocol probes (`tester.py`) -/

/-- `test_vless_link`'s `except` ladder: `socket.timeout`, then
`(ConnectionRefusedError, OSError)`, then `Exception`. -/
def vlessExcept (link : String) (e : Exc) : ProbeResult :=
  match e with
  | .timeoutE => mkDead link "Connection or handshake timed out"
  | e =>
      if isOSErrorExc e then mkDead link ("Connection failed: " ++ excStr e)
      else mkDead link ("An unexpected error occurred: " ++ excStr e)

/-- `test_vmess_link`'s `except` ladder:
`(json.JSONDecodeError, binascii.Error)`, then `socket.timeout`, then
`(ConnectionRefusedError, OSError)`, then `Exception`. -/
def vmessExcept (link : String) (e : Exc) : ProbeResult :=
  match e with
  | .jsonError _ => mkDead link "Invalid Base64 or JSON in link"
  | .binasciiError _ => mkDead link "Invalid Base64 or JSON in link"
  | .timeoutE => mkDead link "Connection timed out"
  | e =>
      if isOSErrorExc e then mkDead link ("Connection failed: " ++ excStr e)
      else mkDead link ("An unexpected error occurred: " ++ excStr e)

/-- `test_trojan_link`'s `except` ladder: `socket.timeout`, then
`(ConnectionRefusedError, OSError, ssl.SSLError)` — one shared clause —
then `Exception`. -/
def trojanExcept (link : String) (e : Exc) : ProbeResult :=
  match e with
  | .timeoutE => mkDead link "Connection or handshake timed out"
  | e =>
      if isOSErrorExc e then mkDead link ("Connection or TLS failed: " ++ excStr e)
      else mkDead link ("An unexpected error occurred: " ++ excStr e)

/-- `test_ss_link`'s `except` ladder:
`(ValueError, IndexError, binascii.Error)` (which also covers
`json.JSONDecodeError`, a `ValueError` subclass), then `socket.timeout`,
then `(ConnectionRefusedError, OSError)`, then `Exception`. -/
def ssExcept (link : String) (e : Exc) : ProbeResult :=
  match e with
  | .valueError _ => mkDead link "Invalid or unparsable SS link format"
  | .jsonError _ => mkDead link "Invalid or unparsable SS link format"
  | .indexError _ => mkDead link "Invalid or unparsable SS link format"
  | .binasciiError _ => mkDead link "Invalid or unparsable SS link format"
  | .timeoutE => mkDead link "Connection timed out"
  | e =>
      if isOSErrorExc e then mkDead link ("Connection failed: " ++ excStr e)
      else mkDead link ("An unexpected error occurred: " ++ excStr e)

/-- `sock.connect((ip, port))` with a port from `urlparse`: a `None`
port raises `TypeError` inside `connect`; otherwise the environment
decides the outcome. -/
def connectWithPortOpt (env : NetEnv) (port : Option Nat) : Except Exc Nat :=
  match port with
  | none => .error (.typeError "an integer is required (got type NoneType)")
  | some _ => env.connect

/-- The optional TLS stage (`if is_tls: sock = context.wrap_socket(...)`):
the TLS handshake outcome when TLS was requested, and an immediate
zero-duration success otherwise. -/
def tlsStage (env : NetEnv) (useTls : Bool) : Except Exc Nat :=
  if useTls then env.tls else .ok 0

/-- The VLESS handshake packet
`[Version][UUID][AddonLength][Command][Port][AddrType][Address]` built
at `tester.py` lines 85-95: version `0x00`, the 16 UUID bytes, a zero
addon length, command `0x01` (TCP), destination port 80, address type
`0x01` (IPv4) and `socket.inet_aton("8.8.8.8")`. -/
def vless_handshake_packet (uuid_bytes : List Nat) : List Nat :=
  [0] ++ uuid_bytes ++ [0] ++ [1] ++ pack16be 80 ++ [1] ++ [8, 8, 8, 8]

/-- `test_vless_link`: parse, resolve, connect, optional TLS, VLESS
handshake, then one response byte.  The reported ping is the elapsed
time between the two `time.time()` reads: the sum of the durations of
the connect, (optional) TLS, send and recv stages. -/
def test_vless_link (env : NetEnv) (link : String) (timeout : Nat) : ProbeResult :=
  let parsed := urlparse link
  let vless_uuid := uplUsername parsed
  let server := uplHostname parsed
  match uplPort parsed with
  | .error e => vlessExcept link e
  | .ok port =>
    let params := parse_qs_safely parsed.query
    let security := qsGet1 params "security" "none"
    let is_tls := security == "tls" || security == "xtls"
    match resolve_domain env server with
    | .error e => vlessExcept link e
    | .ok ip =>
      if pyFalsyStrOpt ip then mkDead link ("DNS resolution failed for: " ++ pyShowOptStr server)
      else
        match connectWithPortOpt env port with
        | .error e => vlessExcept link e
        | .ok d1 =>
          match tlsStage env is_tls with
          | .error e => vlessExcept link e
          | .ok d2 =>
            match pyUUID vless_uuid with
            | .error e => vlessExcept link e
            | .ok uuid_bytes =>
              let _packet := vless_handshake_packet uuid_bytes
              match env.send with
              | .error e => vlessExcept link e
              | .ok d3 =>
                match env.recv with
                | .error e => vlessExcept link e
                | .ok d4 => mkAlive link (d1 + d2 + d3 + d4)

/-- The parsed fields `test_vmess_link` extracts from the decoded JSON
config: `config.get("add")`, `int(config.get("port", 0))`, the
TLS flag `config.get("tls") in ("tls", "xtls")` and
`config.get('sni', server)`. -/
structure VmessParsed where
  server : Option Jv
  port : Int
  tlsOn : Bool
  sni : Option Jv

/-- The field extraction of `test_vmess_link` on a decoded config
object. -/
def vmessExtract (kvs : List (String × Jv)) : Except Exc VmessParsed :=
  let server := pyDictGet kvs "add"
  match pyInt (pyDictGetD kvs "port" (.num 0)) with
  | .error e => .error e
  | .ok port =>
      let tlsOn :=
        match pyDictGet kvs "tls" with
        | some (.str s) => s == "tls" || s == "xtls"
        | _ => false
      let sni :=
        match pyDictGet kvs "sni" with
        | some v => some v
        | none => server
      .ok { server := server, port := port, tlsOn := tlsOn, sni := sni }

/-- The parsing stage of `test_vmess_link` (lines 125-133):
`link.split('://', 1)[1]`, re-padding with `'=' * (-len % 4)`,
`base64.b64decode`, `.decode('utf-8', errors='ignore')`, `json.loads`,
then the field extraction. -/
def vmessParseStage (link : String) : Except Exc VmessParsed :=
  match splitAfterFirstSeq [':', '/', '/'] link.data with
  | none => .error (.indexError "list index out of range")
  | some encoded_part =>
    let padded := encoded_part ++ List.replicate ((4 - encoded_part.length % 4) % 4) '='
    match pyB64Decode (String.mk padded) with
    | .error e => .error e
    | .ok bytes =>
      let config_str := String.mk (utf8DecodeIgnore bytes)
      match jsonParse config_str with
      | none => .error (.jsonError "Expecting value")
      | some (.obj kvs) => vmessExtract kvs
      | some _ => .error (.attrError "object has no attribute get")

/-- `resolve_domain(server)` for the VMess config's address value: a
missing `add` is `None` (`TypeError` at `gethostbyname`); non-string
values are likewise modelled as a raised `TypeError` (immaterial to the
claims — every path is caught by the probe's handlers). -/
def vmessResolve (env : NetEnv) (server : Option Jv) : Except Exc (Option String) :=
  match server with
  | none => resolve_domain env none
  | some (.str s) => resolve_domain env (some s)
  | some _ => .error (.typeError "str, bytes or bytearray expected")

/-- f-string rendering of the config's address value in the DNS error
message. -/
def jvShow : Option Jv → String
  | none => "None"
  | some (.str s) => s
  | some (.num n) => toString n
  | some (.jbool true) => "True"
  | some (.jbool false) => "False"
  | some .null => "None"
  | some (.arr _) => "<list>"
  | some (.obj _) => "<dict>"

/-- `sock.connect((ip, port))` with an `int` port: out-of-range ports
raise `OverflowError`; otherwise the environment decides. -/
def connectWithIntPort (env : NetEnv) (port : Int) : Except Exc Nat :=
  if port < 0 || port > 65535 then .error (.overflowError "getsockaddrarg: port must be 0-65535.")
  else env.connect

/-- `test_vmess_link`: decode the JSON-in-base64 envelope, resolve,
connect and (when the config asks for it) negotiate TLS; the successful
connection alone classifies the candidate alive. -/
def test_vmess_link (env : NetEnv) (link : String) (timeout : Nat) : ProbeResult :=
  match vmessParseStage link with
  | .error e => vmessExcept link e
  | .ok cfg =>
    match vmessResolve env cfg.server with
    | .error e => vmessExcept link e
    | .ok ip =>
      if pyFalsyStrOpt ip then mkDead link ("DNS resolution failed for: " ++ jvShow cfg.server)
      else
        match connectWithIntPort env cfg.port with
        | .error e => vmessExcept link e
        | .ok d1 =>
          match tlsStage env cfg.tlsOn with
          | .error e => vmessExcept link e
          | .ok d2 => mkAlive link (d1 + d2)

/-- The Trojan handshake packet
`[hex of password bytes][CRLF][Command][AddrType][len]['v1.v2ray.com'][port 80][CRLF]`
built at `tester.py` lines 201-211.  Note the first field is
`password.encode('utf-8').hex()` — the hex of the raw password bytes —
although the comment above it documents a 56-byte SHA224 hex digest. -/
def trojan_handshake_packet (password : String) : List Nat :=
  let password_hash := bytesHex (strUtf8 password)
  let crlf := [13, 10]
  let dest_addr := strUtf8 "v1.v2ray.com"
  (password_hash.map Char.toNat) ++ crlf ++ [1] ++ [3] ++ [dest_addr.length] ++ dest_addr ++
    pack16be 80 ++ crlf

/-- The bytes the Trojan probe sends before the first CRLF (byte 13). -/
def trojanSentBeforeCrlf (password : String) : List Nat :=
  (trojan_handshake_packet password).takeWhile (fun b => b ≠ 13)

/-- Socket-level actions a probe performs, in order. -/
inductive TEvent where
  | connected : TEvent
  | tlsDone : TEvent
  | sent : List Nat → TEvent
  | received : TEvent
deriving DecidableEq, Repr

/-- `test_trojan_link` with its socket-action trace: parse, resolve,
TCP connect, unconditional TLS, Trojan handshake send, one response
byte.  A `None` password reaches `password.encode` and raises
`AttributeError` — after TLS, as in the source order. -/
def test_trojan_link_traced (env : NetEnv) (link : String) (timeout : Nat) :
    ProbeResult × List TEvent :=
  let parsed := urlparse link
  let password := uplUsername parsed
  let server := uplHostname parsed
  match uplPort parsed with
  | .error e => (trojanExcept link e, [])
  | .ok _port =>
    let params := parse_qs_safely parsed.query
    match resolve_domain env server with
    | .error e => (trojanExcept link e, [])
    | .ok ip =>
      if pyFalsyStrOpt ip then
        (mkDead link ("DNS resolution failed for: " ++ pyShowOptStr server), [])
      else
        let _sni := qsGetSni params server
        match env.connect with
        | .error e => (trojanExcept link e, [])
        | .ok d1 =>
          match env.tls with
          | .error e => (trojanExcept link e, [.connected])
          | .ok d2 =>
            match password with
            | none =>
                (trojanExcept link (.attrError "NoneType object has no attribute encode"),
                 [.connected, .tlsDone])
            | some pwd =>
              let packet := trojan_handshake_packet pwd
              match env.send with
              | .error e => (trojanExcept link e, [.connected, .tlsDone])
              | .ok d3 =>
                match env.recv with
                | .error e => (trojanExcept link e, [.connected, .tlsDone, .sent packet])
                | .ok d4 =>
                    (mkAlive link (d1 + d2 + d3 + d4),
                     [.connected, .tlsDone, .sent packet, .received])

/-- `test_trojan_link`'s result. -/
def test_trojan_link (env : NetEnv) (link : String) (timeout : Nat) : ProbeResult :=
  (test_trojan_link_traced env link timeout).1

/-- The socket-action trace of one `test_trojan_link` run. -/
def trojanTrace (env : NetEnv) (link : String) (timeout : Nat) : List TEvent :=
  (test_trojan_link_traced env link timeout).2

/-- The `"@" in link` arm of `test_ss_link`'s parser (comment in the
source: `Format: ss://method:password@server:port`): host and port from
the authority via `urlparse`. -/
def ssAuthorityParse (link : String) : Except Exc (Option String × Option Nat) :=
  let parsed := urlparse link
  match uplPort parsed with
  | .error e => .error e
  | .ok port => .ok (uplHostname parsed, port)

/-- The base64 arm of `test_ss_link`'s parser (source comment:
`Format: ss://base64(method:password)@server:port or
ss://base64(method:password@server:port)`): capture after `ss://`,
re-pad, `b64decode`, then search the decoded text with
`@?([^:]+):(\d+)`. -/
def ssBase64Parse (link : String) : Except Exc (Option String × Option Nat) :=
  match ssSchemeSearch link.data with
  | none => .error (.attrError "NoneType object has no attribute group")
  | some encoded_part =>
    let padded := encoded_part ++ List.replicate ((4 - encoded_part.length % 4) % 4) '='
    match pyB64Decode (String.mk padded) with
    | .error e => .error e
    | .ok bytes =>
      let decoded_str := utf8DecodeIgnore bytes
      match ssHostPortSearch decoded_str with
      | some (serverChars, portDigits) =>
          .ok (some (String.mk serverChars), some (digitsToNat portDigits))
      | none => .error (.valueError "Could not parse server/port from Base64 SS link")

/-- The parsing stage of `test_ss_link` (lines 241-257): the authority
form exactly when the link contains `@` anywhere, otherwise the base64
form — a branch on `"@" in link`, not a fallback chain. -/
def ssParseStage (link : String) : Except Exc (Option String × Option Nat) :=
  if link.data.contains '@' then ssAuthorityParse link
  else ssBase64Parse link

/-- `sock.connect((ip, port))` for the SS probe: a `None` port raises
`TypeError`, an out-of-range one `OverflowError`. -/
def ssConnectStage (env : NetEnv) (port : Option Nat) : Except Exc Nat :=
  match port with
  | none => .error (.typeError "an integer is required (got type NoneType)")
  | some p =>
      if p > 65535 then .error (.overflowError "getsockaddrarg: port must be 0-65535.")
      else env.connect

/-- `test_ss_link`: parse one of the two textual forms, resolve, and
classify alive on TCP connect success alone. -/
def test_ss_link (env : NetEnv) (link : String) (timeout : Nat) : ProbeResult :=
  match ssParseStage link with
  | .error e => ssExcept link e
  | .ok (server, port) =>
    match resolve_domain env server with
    | .error e => ssExcept link e
    | .ok ip =>
      if pyFalsyStrOpt ip then mkDead link ("DNS resolution failed for: " ++ pyShowOptStr server)
      else
        match ssConnectStage env port with
        | .error e => ssExcept link e
        | .ok d1 => mkAlive link d1

/- ## The orchestrator (`test_links_ping`) -/

/-- The protocol-to-probe dispatch dict of `test_links_ping`. -/
def test_function_map (protocol : String) : Option (NetEnv → String → Nat → ProbeResult) :=
  if protocol == "vless" then some test_vless_link
  else if protocol == "vmess" then some test_vmess_link
  else if protocol == "trojan" then some test_trojan_link
  else if protocol == "ss" then some test_ss_link
  else none

/-- `test_links_ping`: for each protocol group in input order, skip
empty lists and unknown tags, probe every link, and collect the results
under the protocol key.  `asyncio.gather` preserves task order, so each
group's results are the order-preserving map of its links.  `env` is
the per-invocation world oracle, indexed by protocol tag and link;
`max_workers` bounds concurrency, which is not otherwise modelled. -/
def test_links_ping (env : String → String → NetEnv)
    (categorized_links : List (String × List String)) (max_workers timeout : Nat) :
    List (String × List ProbeResult) :=
  match categorized_links with
  | [] => []
  | (protocol, links) :: rest =>
      if links.isEmpty then test_links_ping env rest max_workers timeout
      else
        match test_function_map protocol with
        | none => test_links_ping env rest max_workers timeout
        | some f =>
            (protocol, links.map (fun link => f (env protocol link) link timeout)) ::
              test_links_ping env rest max_workers timeout

/- ## Definitions following the spec's words, for comparison -/

/-- Modelled from the spec: Protocol D form 1 — "credentials and
endpoint directly in the authority component".  It matches when the
authority carries credentials (an `@`) and a complete `host:port`
endpoint. -/
def ssForm1Spec (link : String) : Option (String × Nat) :=
  let parsed := urlparse link
  if parsed.netloc.data.contains '@' then
    match uplHostname parsed, uplPort parsed with
    | some h, .ok (some p) => some (h, p)
    | _, _ => none
  else none

/-- Modelled from the spec: Protocol D form 2 — "base64-encodes either
the credential pair or the entire `credential@host:port` triple after
the scheme".  The payload after the scheme (up to a fragment) must be
base64; a decoded full triple carries the endpoint after its last `@`;
a decoded bare credential pair leaves the endpoint in the authority,
which is form 1's territory, so it yields no endpoint here. -/
def ssForm2Spec (link : String) : Option (String × Nat) :=
  match splitAfterFirstSeq ['s', 's', ':', '/', '/'] link.data with
  | none => none
  | some afterScheme =>
    let payload := afterScheme.takeWhile (fun c => c != '#')
    if payload.all (fun c => isB64Char c) && payload.length % 4 != 1 then
      let decoded := utf8DecodeIgnore (sextetsToBytes (payload.map (fun c => (charToSextet c).getD 0)))
      match splitAtLastChar '@' decoded with
      | none => none
      | some (_cred, endpoint) =>
          match splitAtLastChar ':' endpoint with
          | none => none
          | some (h, pDigits) =>
              if h ≠ [] ∧ pDigits ≠ [] ∧ pDigits.all isAsciiDigit ∧ digitsToNat pDigits ≤ 65535 then
                some (String.mk h, digitsToNat pDigits)
              else none
    else none

/-- Modelled from the spec: "both must be attempted, in that order,
before declaring the candidate malformed" — form 1, then form 2. -/
def ssParseSpecInOrder (link : String) : Option (String × Nat) :=
  match ssForm1Spec link with
  | some r => some r
  | none => ssForm2Spec link

/- ## Concrete inputs and environments used by witnesses -/

/-- A world where everything succeeds quickly. -/
def envQuick : NetEnv :=
  { dns := fun _ => some "9.9.9.9", connect := .ok 10, tls := .ok 20, send := .ok 5, recv := .ok 7 }

/-- A world where every stage succeeds but slowly: each stage within a
5-second budget, their sum far beyond it. -/
def envSlowStages : NetEnv :=
  { dns := fun _ => some "9.9.9.9", connect := .ok 4000, tls := .ok 4000, send := .ok 2000,
    recv := .ok 2000 }

/-- A world where the TLS handshake is refused. -/
def envTlsRefused : NetEnv :=
  { dns := fun _ => some "9.9.9.9", connect := .ok 10, tls := .error (.sslError "boom"),
    send := .ok 5, recv := .ok 7 }

/-- A world where the TCP connection is refused. -/
def envTcpRefused : NetEnv :=
  { dns := fun _ => some "9.9.9.9", connect := .error (.connRefused "boom"), tls := .ok 20,
    send := .ok 5, recv := .ok 7 }

/-- A world where no hostname resolves. -/
def envNoDns : NetEnv :=
  { dns := fun _ => none, connect := .ok 10, tls := .ok 20, send := .ok 5, recv := .ok 7 }

/-- A VLESS candidate requesting TLS. -/
def vlessLinkW : String :=
  "vless://12345678-1234-5678-1234-567812345678@example.com:443?security=tls"

/-- A Trojan candidate with an IP-literal endpoint. -/
def trojanLinkW : String := "trojan://pw@1.2.3.4:443"

/-- The JSON config used by the Protocol B examples; its value `"~~~"`
forces sextet 62 into the base64 encoding, where the URL-safe and
standard alphabets differ. -/
def vmessCfgW : String := "\x7b\"add\":\"h\",\"port\":80,\"v\":\"~~~\"\x7d"

/-- The URL-safe unpadded base64 of `vmessCfgW` (contains `-`). -/
def vmessPayloadW : String := String.mk (urlsafeEncodeNoPad (strUtf8 vmessCfgW))

/-- An SS candidate whose payload is the base64 of the full
`m:p@1.2.3.4:80` triple, with a fragment that contains an `@`. -/
def ssLinkW : String := "ss://bTpwQDEuMi4zLjQ6ODA#x@x"


/-- A probe result is terminal for its candidate: it echoes the
candidate in `link`, its status is `alive` or `dead`, and a `dead`
status always carries a failure reason. -/
def TerminalResult (link : String) (r : ProbeResult) : Prop :=
  r.link = link ∧ (r.status = "alive" ∨ r.status = "dead") ∧
    (r.status = "dead" → r.error ≠ none)

/- ## Shape lemmas: every probe run ends in `mkDead` or `mkAlive` -/

lemma vlessExcept_isDead (link : String) (e : Exc) : ∃ m, vlessExcept link e = mkDead link m := by
  cases e <;> exact ⟨_, rfl⟩

lemma vmessExcept_isDead (link : String) (e : Exc) : ∃ m, vmessExcept link e = mkDead link m := by
  cases e <;> exact ⟨_, rfl⟩

lemma trojanExcept_isDead (link : String) (e : Exc) : ∃ m, trojanExcept link e = mkDead link m := by
  cases e <;> exact ⟨_, rfl⟩

lemma ssExcept_isDead (link : String) (e : Exc) : ∃ m, ssExcept link e = mkDead link m := by
  cases e <;> exact ⟨_, rfl⟩

lemma vless_shape (env : NetEnv) (link : String) (t : Nat) :
    (∃ m, test_vless_link env link t = mkDead link m) ∨
      (∃ p, test_vless_link env link t = mkAlive link p) := by
  unfold test_vless_link
  dsimp only
  repeat' split
  all_goals
    first
      | exact Or.inl (vlessExcept_isDead _ _)
      | exact Or.inl ⟨_, rfl⟩
      | exact Or.inr ⟨_, rfl⟩

lemma vmess_shape (env : NetEnv) (link : String) (t : Nat) :
    (∃ m, test_vmess_link env link t = mkDead link m) ∨
      (∃ p, test_vmess_link env link t = mkAlive link p) := by
  unfold test_vmess_link
  repeat' split
  all_goals
    first
      | exact Or.inl (vmessExcept_isDead _ _)
      | exact Or.inl ⟨_, rfl⟩
      | exact Or.inr ⟨_, rfl⟩

lemma trojan_shape (env : NetEnv) (link : String) (t : Nat) :
    (∃ m, test_trojan_link env link t = mkDead link m) ∨
      (∃ p, test_trojan_link env link t = mkAlive link p) := by
  unfold test_trojan_link test_trojan_link_traced
  try dsimp only
  repeat' split
  all_goals
    first
      | exact Or.inl (trojanExcept_isDead _ _)
      | exact Or.inl ⟨_, rfl⟩
      | exact Or.inr ⟨_, rfl⟩

lemma ss_shape (env : NetEnv) (link : String) (t : Nat) :
    (∃ m, test_ss_link env link t = mkDead link m) ∨
      (∃ p, test_ss_link env link t = mkAlive link p) := by
  unfold test_ss_link
  repeat' split
  all_goals
    first
      | exact Or.inl (ssExcept_isDead _ _)
      | exact Or.inl ⟨_, rfl⟩
      | exact Or.inr ⟨_, rfl⟩

lemma probeFacts_of_shape {r : ProbeResult} {link : String}
    (h : (∃ m, r = mkDead link m) ∨ (∃ p, r = mkAlive link p)) :
    r.link = link ∧ (r.status = "alive" ∨ r.status = "dead") ∧
      (r.status = "dead" → r.error ≠ none) := by
  rcases h with ⟨m, rfl⟩ | ⟨p, rfl⟩
  · exact ⟨rfl, Or.inr rfl, fun _ => by simp [mkDead]⟩
  · refine ⟨rfl, Or.inl rfl, fun h2 => ?_⟩
    exact absurd h2 (by simp [mkAlive])

lemma terminal_of_shape {r : ProbeResult} {link : String}
    (h : (∃ m, r = mkDead link m) ∨ (∃ p, r = mkAlive link p)) : TerminalResult link r :=
  probeFacts_of_shape h

/-- C2: Every one of the four protocol test functions is total at its
public interface: for every link string, timeout and network behaviour
it returns normally with a result whose status is `alive` or `dead`,
and a `dead` result carries a non-`None` failure reason — every
exception raised inside the probe (parsing, DNS, connect, TLS, I/O) is
caught by the probe's own `except` ladder, whose final `except
Exception` clause leaves nothing to propagate to the orchestrator. -/
theorem probe_functions_total (env : NetEnv) (link : String) (t : Nat) :
    TerminalResult link (test_vless_link env link t) ∧
      TerminalResult link (test_vmess_link env link t) ∧
      TerminalResult link (test_trojan_link env link t) ∧
      TerminalResult link (test_ss_link env link t) :=
  ⟨terminal_of_shape (vless_shape env link t), terminal_of_shape (vmess_shape env link t),
    terminal_of_shape (trojan_shape env link t), terminal_of_shape (ss_shape env link t)⟩

/- ## Orchestrator lemmas -/

lemma tfm_of_supported {tag : String} (h : tag ∈ (["vless", "vmess", "trojan", "ss"] : List String)) :
    ∃ f, test_function_map tag = some f := by
  have h2 : tag = "vless" ∨ tag = "vmess" ∨ tag = "trojan" ∨ tag = "ss" := by simpa using h
  rcases h2 with rfl | rfl | rfl | rfl <;> exact ⟨_, rfl⟩

lemma tfm_shape {tag : String} {f : NetEnv → String → Nat → ProbeResult}
    (h : test_function_map tag = some f) (env : NetEnv) (link : String) (t : Nat) :
    (∃ m, f env link t = mkDead link m) ∨ (∃ p, f env link t = mkAlive link p) := by
  unfold test_function_map at h
  split at h
  · cases h; exact vless_shape env link t
  · split at h
    · cases h; exact vmess_shape env link t
    · split at h
      · cases h; exact trojan_shape env link t
      · split at h
        · cases h; exact ss_shape env link t
        · cases h

lemma tlp_lookup (env : String → String → NetEnv) (mw t : Nat) :
    ∀ (cat : List (String × List String)) (tag : String) (links : List String)
      (f : NetEnv → String → Nat → ProbeResult),
      (cat.map Prod.fst).Nodup → (tag, links) ∈ cat → links ≠ [] →
      test_function_map tag = some f →
      List.lookup tag (test_links_ping env cat mw t) =
        some (links.map (fun l => f (env tag l) l t)) := by
  intro cat
  induction cat with
  | nil => intro tag links f _ h; cases h
  | cons hd tl ih =>
    intro tag links f hnd hmem hne hf
    obtain ⟨p, ls⟩ := hd
    rcases List.mem_cons.mp hmem with heq | hmem2
    · injection heq with h1 h2
      subst h1; subst h2
      unfold test_links_ping
      rw [if_neg (by simpa [List.isEmpty_iff] using hne)]
      rw [hf]
      simp [List.lookup]
    · have hnd2 : p ∉ tl.map Prod.fst ∧ (tl.map Prod.fst).Nodup := by
        rw [List.map_cons, List.nodup_cons] at hnd
        exact hnd
      have hp : p ≠ tag := by
        intro h
        subst h
        exact hnd2.1 (List.mem_map_of_mem Prod.fst hmem2)
      have hrec := ih tag links f hnd2.2 hmem2 hne hf
      unfold test_links_ping
      split
      · exact hrec
      · split
        · exact hrec
        · simpa [List.lookup, beq_eq_false_iff_ne.mpr (Ne.symm hp)] using hrec

lemma tlp_mem_key (env : String → String → NetEnv) (mw t : Nat) :
    ∀ (cat : List (String × List String)) (pr : String × List ProbeResult),
      pr ∈ test_links_ping env cat mw t →
      ∃ ls, (pr.1, ls) ∈ cat ∧ ls ≠ [] ∧ (test_function_map pr.1).isSome := by
  intro cat
  induction cat with
  | nil => intro pr h; cases h
  | cons hd tl ih =>
    intro pr h
    obtain ⟨p, ls⟩ := hd
    unfold test_links_ping at h
    by_cases hemp : ls.isEmpty
    · rw [if_pos hemp] at h
      obtain ⟨ls2, h1, h2, h3⟩ := ih pr h
      exact ⟨ls2, List.mem_cons_of_mem _ h1, h2, h3⟩
    · rw [if_neg hemp] at h
      rcases htf : test_function_map p with _ | f
      · rw [htf] at h
        obtain ⟨ls2, h1, h2, h3⟩ := ih pr h
        exact ⟨ls2, List.mem_cons_of_mem _ h1, h2, h3⟩
      · rw [htf] at h
        rcases List.mem_cons.mp h with rfl | h2
        · exact ⟨ls, List.mem_cons_self _ _, by simpa [List.isEmpty_iff] using hemp,
            by simp [htf]⟩
        · obtain ⟨ls2, h1, h2, h3⟩ := ih pr h2
          exact ⟨ls2, List.mem_cons_of_mem _ h1, h2, h3⟩

lemma assoc_unique {cat : List (String × List String)} {tag : String} {a b : List String}
    (hnd : (cat.map Prod.fst).Nodup) (ha : (tag, a) ∈ cat) (hb : (tag, b) ∈ cat) : a = b := by
  induction cat with
  | nil => cases ha
  | cons hd tl ih =>
    have hnd2 : hd.1 ∉ tl.map Prod.fst ∧ (tl.map Prod.fst).Nodup := by
      rw [List.map_cons, List.nodup_cons] at hnd
      exact hnd
    rcases List.mem_cons.mp ha with h1 | h1
    · rcases List.mem_cons.mp hb with h2 | h2
      · rw [← h1] at h2; injection h2 with _ h3; exact h3.symm
      · exact absurd (by rw [← h1]; simpa using List.mem_map_of_mem Prod.fst h2) hnd2.1
    · rcases List.mem_cons.mp hb with h2 | h2
      · exact absurd (by rw [← h2]; simpa using List.mem_map_of_mem Prod.fst h1) hnd2.1
      · exact ih hnd2.2 h1 h2

/- ## Orchestrator claims -/

/-- C1: For every candidate `C` submitted to the orchestrator
`test_links_ping` under a supported protocol tag (`vless`, `vmess`,
`trojan`, `ss`), the returned mapping contains under that tag exactly
one Probe Result per submission of `C` whose `link` field equals `C`
(the number of such results equals the number of times `C` occurs in
the submitted list — exactly one for deduplicated input), no candidate
is silently dropped, and every result is terminal (`alive` or
`dead`). -/
theorem test_links_ping_one_result_per_candidate
    (env : String → String → NetEnv) (cat : List (String × List String)) (mw t : Nat)
    (tag C : String) (links : List String)
    (hnd : (cat.map Prod.fst).Nodup)
    (hmem : (tag, links) ∈ cat)
    (hsup : tag ∈ (["vless", "vmess", "trojan", "ss"] : List String))
    (hC : C ∈ links) :
    ∃ results, List.lookup tag (test_links_ping env cat mw t) = some results ∧
      results.countP (fun r => r.link == C) = links.count C ∧
      ∀ r ∈ results, r.status = "alive" ∨ r.status = "dead" := by
  obtain ⟨f, hf⟩ := tfm_of_supported hsup
  have hne : links ≠ [] := by rintro rfl; cases hC
  refine ⟨_, tlp_lookup env mw t cat tag links f hnd hmem hne hf, ?_, ?_⟩
  · rw [List.countP_map]
    rw [show links.count C = links.countP (fun c => c == C) from rfl]
    apply List.countP_congr
    intro c hc
    rcases tfm_shape hf (env tag c) c t with ⟨m, hm⟩ | ⟨p, hm⟩ <;>
      simp [Function.comp, hm, mkDead, mkAlive]
  · intro r hr
    obtain ⟨c, hc, rfl⟩ := List.mem_map.mp hr
    exact (probeFacts_of_shape (tfm_shape hf (env tag c) c t)).2.1

/-- Witness for C1 at a concrete batch of one `ss` candidate. -/
theorem test_links_ping_one_result_per_candidate_witness :
    ∃ results,
      List.lookup "ss"
          (test_links_ping (fun _ _ => envQuick) [("ss", ["ss://aes:pw@3.3.3.3:8388"])] 100 5) =
        some results ∧
      results.countP (fun r => r.link == "ss://aes:pw@3.3.3.3:8388") =
        (["ss://aes:pw@3.3.3.3:8388"] : List String).count "ss://aes:pw@3.3.3.3:8388" ∧
      ∀ r ∈ results, r.status = "alive" ∨ r.status = "dead" :=
  test_links_ping_one_result_per_candidate (fun _ _ => envQuick) _ 100 5 "ss"
    "ss://aes:pw@3.3.3.3:8388" ["ss://aes:pw@3.3.3.3:8388"]
    (by decide) (by decide) (by decide) (by decide)

/-- C9: For every supported protocol tag with a non-empty candidate
list, the result list returned by `test_links_ping` has the same length
as the input list and preserves its order: the `i`-th result's `link`
field equals the `i`-th input candidate. -/
theorem test_links_ping_preserves_order
    (env : String → String → NetEnv) (cat : List (String × List String)) (mw t : Nat)
    (tag : String) (links : List String)
    (hnd : (cat.map Prod.fst).Nodup)
    (hmem : (tag, links) ∈ cat)
    (hsup : tag ∈ (["vless", "vmess", "trojan", "ss"] : List String))
    (hne : links ≠ []) :
    ∃ results, List.lookup tag (test_links_ping env cat mw t) = some results ∧
      results.length = links.length ∧
      ∀ i (h1 : i < results.length) (h2 : i < links.length), (results[i]).link = links[i] := by
  obtain ⟨f, hf⟩ := tfm_of_supported hsup
  refine ⟨_, tlp_lookup env mw t cat tag links f hnd hmem hne hf, by simp, ?_⟩
  intro i h1 h2
  simp only [List.getElem_map]
  exact (probeFacts_of_shape (tfm_shape hf (env tag links[i]) links[i] t)).1

/-- Witness for C9 at a concrete two-candidate `trojan` batch. -/
theorem test_links_ping_preserves_order_witness :
    ∃ results,
      List.lookup "trojan"
          (test_links_ping (fun _ _ => envQuick)
            [("trojan", ["trojan://a@1.2.3.4:443", "trojan://b@1.2.3.4:443"])] 100 5) =
        some results ∧
      results.length = (["trojan://a@1.2.3.4:443", "trojan://b@1.2.3.4:443"] : List String).length ∧
      ∀ i (h1 : i < results.length)
        (h2 : i < (["trojan://a@1.2.3.4:443", "trojan://b@1.2.3.4:443"] : List String).length),
        (results[i]).link = (["trojan://a@1.2.3.4:443", "trojan://b@1.2.3.4:443"] : List String)[i] :=
  test_links_ping_preserves_order (fun _ _ => envQuick) _ 100 5 "trojan"
    ["trojan://a@1.2.3.4:443", "trojan://b@1.2.3.4:443"]
    (by decide) (by decide) (by decide) (by decide)

/-- C10: A protocol tag mapped to an empty candidate list (and likewise
any tag with no dispatch entry in `test_function_map`) is omitted
entirely from the mapping returned by `test_links_ping`: the output
contains no key for that tag rather than an empty result list. -/
theorem test_links_ping_omits_empty_and_unsupported
    (env : String → String → NetEnv) (cat : List (String × List String)) (mw t : Nat)
    (tag : String) (links : List String)
    (hnd : (cat.map Prod.fst).Nodup)
    (hmem : (tag, links) ∈ cat)
    (h : links = [] ∨ test_function_map tag = none) :
    tag ∉ (test_links_ping env cat mw t).map Prod.fst := by
  intro hmemOut
  obtain ⟨pr, hprmem, hfst⟩ := List.mem_map.mp hmemOut
  obtain ⟨ls, hls, hlsne, hsome⟩ := tlp_mem_key env mw t cat pr hprmem
  rw [hfst] at hls hsome
  have heq := assoc_unique hnd hls hmem
  rcases h with rfl | hnone
  · exact hlsne heq
  · rw [hnone] at hsome
    cases hsome

/-- Witness for C10: an empty `vless` group and an unknown tag both
vanish from the output. -/
theorem test_links_ping_omits_empty_and_unsupported_witness :
    "vless" ∉ (test_links_ping (fun _ _ => envQuick) [("vless", []), ("foo", ["x"])] 100 5).map
        Prod.fst ∧
      "foo" ∉ (test_links_ping (fun _ _ => envQuick) [("vless", []), ("foo", ["x"])] 100 5).map
        Prod.fst :=
  ⟨test_links_ping_omits_empty_and_unsupported (fun _ _ => envQuick) _ 100 5 "vless" []
      (by decide) (by decide) (Or.inl rfl),
    test_links_ping_omits_empty_and_unsupported (fun _ _ => envQuick) _ 100 5 "foo" ["x"]
      (by decide) (by decide) (Or.inr rfl)⟩

/- ## Handler status lemmas -/

lemma vlessExcept_status (link : String) (e : Exc) : (vlessExcept link e).status = "dead" := by
  obtain ⟨m, hm⟩ := vlessExcept_isDead link e
  rw [hm]; rfl

lemma vmessExcept_status (link : String) (e : Exc) : (vmessExcept link e).status = "dead" := by
  obtain ⟨m, hm⟩ := vmessExcept_isDead link e
  rw [hm]; rfl

lemma trojanExcept_status (link : String) (e : Exc) : (trojanExcept link e).status = "dead" := by
  obtain ⟨m, hm⟩ := trojanExcept_isDead link e
  rw [hm]; rfl

lemma ssExcept_status (link : String) (e : Exc) : (ssExcept link e).status = "dead" := by
  obtain ⟨m, hm⟩ := ssExcept_isDead link e
  rw [hm]; rfl

/- ## Latency bounds (claim C4) -/

lemma wellTimed_stages {env : NetEnv} {t : Nat} (hw : wellTimed env t = true) :
    (∀ d, env.connect = .ok d → d ≤ t * 1000) ∧ (∀ d, env.tls = .ok d → d ≤ t * 1000) ∧
      (∀ d, env.send = .ok d → d ≤ t * 1000) ∧ (∀ d, env.recv = .ok d → d ≤ t * 1000) := by
  unfold wellTimed at hw
  rw [Bool.and_eq_true, Bool.and_eq_true, Bool.and_eq_true] at hw
  obtain ⟨⟨⟨h1, h2⟩, h3⟩, h4⟩ := hw
  refine ⟨fun d hd => ?_, fun d hd => ?_, fun d hd => ?_, fun d hd => ?_⟩
  · rw [hd] at h1; simpa [stageWithin] using h1
  · rw [hd] at h2; simpa [stageWithin] using h2
  · rw [hd] at h3; simpa [stageWithin] using h3
  · rw [hd] at h4; simpa [stageWithin] using h4


lemma connectWithPortOpt_ok {env : NetEnv} {port : Option Nat} {d : Nat}
    (h : connectWithPortOpt env port = .ok d) : env.connect = .ok d := by
  cases port with
  | none => cases h
  | some p => exact h

lemma connectWithIntPort_ok {env : NetEnv} {port : Int} {d : Nat}
    (h : connectWithIntPort env port = .ok d) : env.connect = .ok d := by
  unfold connectWithIntPort at h
  split at h
  · cases h
  · exact h

lemma ssConnectStage_ok {env : NetEnv} {port : Option Nat} {d : Nat}
    (h : ssConnectStage env port = .ok d) : env.connect = .ok d := by
  unfold ssConnectStage at h
  split at h
  · cases h
  · split at h
    · cases h
    · exact h

lemma tlsStage_ok {env : NetEnv} {b : Bool} {d : Nat}
    (h : tlsStage env b = .ok d) : env.tls = .ok d ∨ d = 0 := by
  cases b with
  | false => right; cases h; rfl
  | true => left; exact h

lemma vless_alive_bound (env : NetEnv) (link : String) (t : Nat) (hw : wellTimed env t = true) :
    (test_vless_link env link t).status = "alive" →
      ∃ p, (test_vless_link env link t).ping_ms = some p ∧ p ≤ 4 * (t * 1000) := by
  obtain ⟨hb1, hb2, hb3, hb4⟩ := wellTimed_stages hw
  unfold test_vless_link
  dsimp only
  repeat' split
  all_goals intro ha
  all_goals
    try (rw [vlessExcept_status] at ha; exact absurd ha (by decide))
  all_goals
    try (simp only [mkDead] at ha; exact absurd ha (by decide))
  refine ⟨_, rfl, ?_⟩
  have b1 := hb1 _ (connectWithPortOpt_ok ‹connectWithPortOpt env _ = Except.ok _›)
  have b3 := hb3 _ ‹env.send = Except.ok _›
  have b4 := hb4 _ ‹env.recv = Except.ok _›
  rcases tlsStage_ok ‹tlsStage env _ = Except.ok _› with h2 | h2
  · have b2 := hb2 _ h2
    omega
  · omega

lemma vmess_alive_bound (env : NetEnv) (link : String) (t : Nat) (hw : wellTimed env t = true) :
    (test_vmess_link env link t).status = "alive" →
      ∃ p, (test_vmess_link env link t).ping_ms = some p ∧ p ≤ 2 * (t * 1000) := by
  obtain ⟨hb1, hb2, hb3, hb4⟩ := wellTimed_stages hw
  unfold test_vmess_link
  repeat' split
  all_goals intro ha
  all_goals
    try (rw [vmessExcept_status] at ha; exact absurd ha (by decide))
  all_goals
    try (simp only [mkDead] at ha; exact absurd ha (by decide))
  refine ⟨_, rfl, ?_⟩
  have b1 := hb1 _ (connectWithIntPort_ok ‹connectWithIntPort env _ = Except.ok _›)
  rcases tlsStage_ok ‹tlsStage env _ = Except.ok _› with h2 | h2
  · have b2 := hb2 _ h2
    omega
  · omega

lemma trojan_alive_bound (env : NetEnv) (link : String) (t : Nat) (hw : wellTimed env t = true) :
    (test_trojan_link env link t).status = "alive" →
      ∃ p, (test_trojan_link env link t).ping_ms = some p ∧ p ≤ 4 * (t * 1000) := by
  obtain ⟨hb1, hb2, hb3, hb4⟩ := wellTimed_stages hw
  unfold test_trojan_link test_trojan_link_traced
  try dsimp only
  repeat' split
  all_goals intro ha
  all_goals
    try (rw [trojanExcept_status] at ha; exact absurd ha (by decide))
  all_goals
    try (simp only [mkDead] at ha; exact absurd ha (by decide))
  refine ⟨_, rfl, ?_⟩
  have b1 := hb1 _ ‹env.connect = Except.ok _›
  have b2 := hb2 _ ‹env.tls = Except.ok _›
  have b3 := hb3 _ ‹env.send = Except.ok _›
  have b4 := hb4 _ ‹env.recv = Except.ok _›
  omega

lemma ss_alive_bound (env : NetEnv) (link : String) (t : Nat) (hw : wellTimed env t = true) :
    (test_ss_link env link t).status = "alive" →
      ∃ p, (test_ss_link env link t).ping_ms = some p ∧ p ≤ t * 1000 := by
  obtain ⟨hb1, hb2, hb3, hb4⟩ := wellTimed_stages hw
  unfold test_ss_link
  repeat' split
  all_goals intro ha
  all_goals
    try (rw [ssExcept_status] at ha; exact absurd ha (by decide))
  all_goals
    try (simp only [mkDead] at ha; exact absurd ha (by decide))
  refine ⟨_, rfl, ?_⟩
  exact hb1 _ (ssConnectStage_ok ‹ssConnectStage env _ = Except.ok _›)

/-- C4 counterexample: with a 5-second timeout, a VLESS probe whose
connect, TLS, send and recv stages each respect the per-stage timeout
(4000+4000+2000+2000 ms) is classified `alive` with
`ping_ms = 12000 > 5 * 1000` — the reported latency is not bounded by
the configured timeout in milliseconds. -/
theorem vless_ping_can_exceed_timeout :
    wellTimed envSlowStages 5 = true ∧
      (test_vless_link envSlowStages vlessLinkW 5).status = "alive" ∧
      (test_vless_link envSlowStages vlessLinkW 5).ping_ms = some 12000 ∧
      ¬(12000 ≤ 5 * 1000) := by decide

/-- C4 amended: for a candidate classified `alive` under timeout `t`
(with every blocking stage individually bounded by `t`, as
`socket.settimeout` guarantees), the reported `ping_ms` is a
non-negative integer bounded by the number of blocking stages times
`t * 1000`: `4·t·1000` for `test_vless_link` and `test_trojan_link`
(connect, TLS, send, recv), `2·t·1000` for `test_vmess_link` (connect,
TLS), and `t * 1000` for `test_ss_link` (connect only) — but not by
`t * 1000` in general. -/
theorem alive_ping_bounded_by_stage_count (env : NetEnv) (link : String) (t : Nat)
    (hw : wellTimed env t = true) :
    ((test_vless_link env link t).status = "alive" →
        ∃ p, (test_vless_link env link t).ping_ms = some p ∧ p ≤ 4 * (t * 1000)) ∧
      ((test_vmess_link env link t).status = "alive" →
        ∃ p, (test_vmess_link env link t).ping_ms = some p ∧ p ≤ 2 * (t * 1000)) ∧
      ((test_trojan_link env link t).status = "alive" →
        ∃ p, (test_trojan_link env link t).ping_ms = some p ∧ p ≤ 4 * (t * 1000)) ∧
      ((test_ss_link env link t).status = "alive" →
        ∃ p, (test_ss_link env link t).ping_ms = some p ∧ p ≤ t * 1000) :=
  ⟨vless_alive_bound env link t hw, vmess_alive_bound env link t hw,
    trojan_alive_bound env link t hw, ss_alive_bound env link t hw⟩

/-- Witness for the amended C4 at a concrete fast world. -/
theorem alive_ping_bounded_by_stage_count_witness :
    ∃ p, (test_vless_link envQuick vlessLinkW 5).ping_ms = some p ∧ p ≤ 4 * (5 * 1000) :=
  (alive_ping_bounded_by_stage_count envQuick vlessLinkW 5 (by decide)).1 (by decide)

/-- C5 counterexample: in `test_trojan_link` a refused TLS handshake
and a refused TCP connection flow into the same `except` clause and
produce the same failure reason text (`Connection or TLS failed: ...`)
— the TLS-failure reason is not a category distinct from a plain
connect failure. -/
theorem trojan_tls_reason_not_distinct :
    (test_trojan_link envTlsRefused trojanLinkW 5).error =
        (test_trojan_link envTcpRefused trojanLinkW 5).error ∧
      (test_trojan_link envTlsRefused trojanLinkW 5).error =
        some "Connection or TLS failed: boom" ∧
      (test_trojan_link envTlsRefused trojanLinkW 5).status = "dead" ∧
      (test_trojan_link envTcpRefused trojanLinkW 5).status = "dead" := by decide

/-- C5 amended: `test_trojan_link` performs the TLS handshake
unconditionally and before sending any handshake bytes (every `sent`
event in its socket trace is preceded by a `tlsDone` event); a
candidate whose endpoint refuses TLS is classified `dead`, never
`alive`, and an `ssl.SSLError` after a successful connect yields the
reason `Connection or TLS failed: ...` — the same reason format the
probe uses for plain TCP connect failures, so the category is shared,
not distinct. -/
theorem trojan_tls_precedes_send_and_fails_dead (env : NetEnv) (link : String) (t : Nat) :
    (∀ i (hi : i < (trojanTrace env link t).length),
        (∃ bs, (trojanTrace env link t)[i] = TEvent.sent bs) →
          TEvent.tlsDone ∈ (trojanTrace env link t).take i) ∧
      (∀ e, env.tls = .error e → (test_trojan_link env link t).status = "dead") ∧
      (∀ m, env.tls = .error (.sslError m) → TEvent.connected ∈ trojanTrace env link t →
        (test_trojan_link env link t).error = some ("Connection or TLS failed: " ++ m)) := by
  unfold trojanTrace test_trojan_link
  generalize hgen : test_trojan_link_traced env link t = pr
  obtain ⟨r, tr⟩ := pr
  unfold test_trojan_link_traced at hgen
  try dsimp only at hgen
  repeat' split at hgen
  all_goals
    (injection hgen with hg1 hg2; subst hg1; subst hg2)
  all_goals try dsimp only
  all_goals refine ⟨?_, ?_, ?_⟩
  all_goals
    try
      (intro i hi hbs
       rcases hbs with ⟨bs, hbs⟩
       simp only [List.length_nil, List.length_cons] at hi
       interval_cases i <;> simp_all)
  all_goals
    try (intro e he; first | exact trojanExcept_status _ _ | rfl | (simp_all; done))
  all_goals
    (intro m hm hc
     first
       | (simp_all [trojanExcept, isOSErrorExc, excStr, mkDead]; done)
       | (simp_all [trojanExcept, isOSErrorExc, excStr, mkDead]
          rename_i hx
          subst hx
          rfl))

/-- Witness for the amended C5: in a fully successful run the handshake
send happens after TLS; with a refused TLS handshake the same candidate
is dead with the shared connect-or-TLS reason. -/
theorem trojan_tls_precedes_send_and_fails_dead_witness :
    TEvent.tlsDone ∈ (trojanTrace envQuick trojanLinkW 5).take 2 ∧
      (test_trojan_link envTlsRefused trojanLinkW 5).status = "dead" ∧
      (test_trojan_link envTlsRefused trojanLinkW 5).error =
        some ("Connection or TLS failed: " ++ "boom") :=
  ⟨(trojan_tls_precedes_send_and_fails_dead envQuick trojanLinkW 5).1 2 (by decide)
      ⟨trojan_handshake_packet "pw", by decide⟩,
    (trojan_tls_precedes_send_and_fails_dead envTlsRefused trojanLinkW 5).2.1 _ rfl,
    (trojan_tls_precedes_send_and_fails_dead envTlsRefused trojanLinkW 5).2.2 "boom" rfl
      (by decide)⟩

/- ## VLESS handshake length (claim C8) and Trojan hash field (claim C3) -/

lemma hexPairsToBytes_length : ∀ cs : List Char, (hexPairsToBytes cs).length = cs.length / 2 := by
  intro cs
  induction cs using hexPairsToBytes.induct with
  | case1 h1 h2 rest ih =>
      simp only [hexPairsToBytes, List.length_cons, ih]
      omega
  | case2 cs h =>
      rcases cs with _ | ⟨c, _ | ⟨c2, rest⟩⟩
      · rfl
      · simp [hexPairsToBytes]
      · exact absurd rfl (h c c2 rest)

lemma pyUUID_ok_length {s : Option String} {u : List Nat} (h : pyUUID s = .ok u) :
    u.length = 16 := by
  unfold pyUUID at h
  split at h
  · exact Except.noConfusion h
  · try dsimp only at h
    split at h
    · injection h with h2
      subst h2
      rename_i hcond
      rw [Bool.and_eq_true, beq_iff_eq] at hcond
      rw [hexPairsToBytes_length, hcond.1]
    · exact Except.noConfusion h

/-- C8: For every Protocol A (VLESS) candidate whose UUID parses, the
handshake packet built by `test_vless_link` has total length exactly
26 bytes — 1 (version) + 16 (UUID) + 1 (addon length) + 1 (command) +
2 (port) + 1 (address type) + 4 (IPv4 address) — independent of the
candidate's own host, port, or query parameters (none of which the
packet mentions). -/
theorem vless_handshake_packet_len26 (s : Option String) (u : List Nat)
    (h : pyUUID s = .ok u) : (vless_handshake_packet u).length = 26 := by
  have hu : u.length = 16 := pyUUID_ok_length h
  simp [vless_handshake_packet, pack16be, hu]

/-- Witness for C8 at a concrete UUID. -/
theorem vless_handshake_packet_len26_witness :
    pyUUID (some "12345678-1234-5678-1234-567812345678") =
        .ok [18, 52, 86, 120, 18, 52, 86, 120, 18, 52, 86, 120, 18, 52, 86, 120] ∧
      (vless_handshake_packet
          [18, 52, 86, 120, 18, 52, 86, 120, 18, 52, 86, 120, 18, 52, 86, 120]).length = 26 :=
  ⟨by decide,
    vless_handshake_packet_len26 (some "12345678-1234-5678-1234-567812345678") _ (by decide)⟩

/-- C3 (code bug): the first field of the Trojan handshake is
`password.encode('utf-8').hex()` — the hex of the raw password bytes —
so the prefix before the first CRLF has length `2 · |password|`, not
the fixed 56-hex-character SHA224 digest that both the spec and the
code's own comment (`56-byte HEX of SHA224(password)`) describe.  For
password `"a"` the probe sends `"61"` (2 bytes) before the CRLF; for
`"abc"` it sends 6 bytes. -/
theorem trojan_hash_prefix_is_raw_hex_not_fixed :
    trojanSentBeforeCrlf "a" = [54, 49] ∧
      (trojanSentBeforeCrlf "a").length = 2 ∧
      (trojanSentBeforeCrlf "abc").length = 6 ∧
      (trojanSentBeforeCrlf "a").length ≠ (trojanSentBeforeCrlf "abc").length ∧
      (trojanSentBeforeCrlf "a").length ≠ 56 := by decide

/- ## SS parsing form selection (claim C7) -/

/-- C7 counterexample: the two Protocol D forms are not attempted in
order.  `ssLinkW` carries the base64 of the full `m:p@1.2.3.4:80`
triple, plus a fragment containing `@`: trying form 1 and then form 2
(the spec's words) yields the endpoint `1.2.3.4:80`, but because the
raw link contains an `@` the code commits to the authority form only,
extracts the base64 text itself as a bogus hostname with no port, and
dies without ever attempting form 2 — as a DNS failure on the bogus
hostname, or, with DNS answering, as an unexpected `TypeError` from the
`None` port rather than any parse-failure reason. -/
theorem ss_forms_not_tried_in_order :
    ssParseSpecInOrder ssLinkW = some ("1.2.3.4", 80) ∧
      ssParseStage ssLinkW = .ok (some "btpwqdeumi4zljq6oda", none) ∧
      test_ss_link envNoDns ssLinkW 5 =
        mkDead ssLinkW "DNS resolution failed for: btpwqdeumi4zljq6oda" ∧
      test_ss_link envQuick ssLinkW 5 =
        mkDead ssLinkW
          "An unexpected error occurred: an integer is required (got type NoneType)" := by
  decide

/-- C7 amended: `test_ss_link` selects exactly one parsing form by the
presence of `@` anywhere in the link — the authority form when present,
the base64 form otherwise — with no fallback from one form to the
other; and when the selected form's parse raises `ValueError` or
`binascii.Error` the candidate yields a `dead` result with the generic
parse-failure reason `Invalid or unparsable SS link format` rather than
an exception. -/
theorem ss_form_selected_by_at_sign (link : String) (env : NetEnv) (t : Nat) :
    (link.data.contains '@' = true → ssParseStage link = ssAuthorityParse link) ∧
      (link.data.contains '@' = false → ssParseStage link = ssBase64Parse link) ∧
      (∀ m, ssParseStage link = .error (.valueError m) →
        test_ss_link env link t = mkDead link "Invalid or unparsable SS link format") ∧
      (∀ m, ssParseStage link = .error (.binasciiError m) →
        test_ss_link env link t = mkDead link "Invalid or unparsable SS link format") := by
  refine ⟨fun h => by unfold ssParseStage; rw [if_pos h],
    fun h => by unfold ssParseStage; rw [if_neg (by rw [h]; simp)], ?_, ?_⟩
  · intro m hp
    unfold test_ss_link
    rw [hp]
    rfl
  · intro m hp
    unfold test_ss_link
    rw [hp]
    rfl

/-- Witness for the amended C7: an authority-form link selects form 1;
an empty base64 payload and an undecodable one both surface the generic
parse-failure reason. -/
theorem ss_form_selected_by_at_sign_witness :
    ssParseStage "ss://m:p@3.3.3.3:80" = ssAuthorityParse "ss://m:p@3.3.3.3:80" ∧
      test_ss_link envQuick "ss://" 5 =
        mkDead "ss://" "Invalid or unparsable SS link format" ∧
      test_ss_link envQuick "ss://%%%" 5 =
        mkDead "ss://%%%" "Invalid or unparsable SS link format" :=
  ⟨(ss_form_selected_by_at_sign "ss://m:p@3.3.3.3:80" envQuick 5).1 (by decide),
    (ss_form_selected_by_at_sign "ss://" envQuick 5).2.2.1
      "Could not parse server/port from Base64 SS link" (by decide),
    (ss_form_selected_by_at_sign "ss://%%%" envQuick 5).2.2.2
      "Invalid base64-encoded string" (by decide)⟩

/- ## Base64 round trip (claim C6) -/

lemma bytesToSextets_lt (b : List Nat) (hb : ∀ x ∈ b, x < 256) :
    ∀ s ∈ bytesToSextets b, s < 64 := by
  induction b using bytesToSextets.induct with
  | case1 => intro s hs; cases hs
  | case2 a =>
      have ha := hb a (by simp)
      intro s hs
      simp only [bytesToSextets, List.mem_cons, List.not_mem_nil, or_false] at hs
      rcases hs with rfl | rfl <;> omega
  | case3 a c =>
      have ha := hb a (by simp)
      have hc := hb c (by simp)
      intro s hs
      simp only [bytesToSextets, List.mem_cons, List.not_mem_nil, or_false] at hs
      rcases hs with rfl | rfl | rfl <;> omega
  | case4 a c d rest ih =>
      have ha := hb a (by simp)
      have hc := hb c (by simp)
      have hd := hb d (by simp)
      have hrest : ∀ x ∈ rest, x < 256 := fun x hx => hb x (by simp [hx])
      intro s hs
      simp only [bytesToSextets, List.mem_cons] at hs
      rcases hs with rfl | rfl | rfl | rfl | hs
      · omega
      · omega
      · omega
      · omega
      · exact ih hrest s hs

lemma bytesToSextets_len_mod (b : List Nat) : (bytesToSextets b).length % 4 ≠ 1 := by
  induction b using bytesToSextets.induct with
  | case1 => simp [bytesToSextets]
  | case2 a => simp [bytesToSextets]
  | case3 a c => simp [bytesToSextets]
  | case4 a c d rest ih =>
      simp only [bytesToSextets, List.length_cons]
      omega

lemma charToSextet_sextetToChar : ∀ s, s < 64 → charToSextet (sextetToChar s) = some s := by
  decide

lemma isB64Char_sextetToChar : ∀ s, s < 64 → isB64Char (sextetToChar s) = true := by
  decide

lemma sextetToChar_ne_pad : ∀ s, s < 64 → (sextetToChar s != '=') = true := by
  decide

lemma sextets_roundtrip (b : List Nat) (hb : ∀ x ∈ b, x < 256) :
    sextetsToBytes (bytesToSextets b) = b := by
  induction b using bytesToSextets.induct with
  | case1 => rfl
  | case2 a =>
      have ha : a < 256 := hb a (by simp)
      simp [bytesToSextets, sextetsToBytes]
      omega
  | case3 a c =>
      have ha : a < 256 := hb a (by simp)
      have hc : c < 256 := hb c (by simp)
      simp [bytesToSextets, sextetsToBytes]
      omega
  | case4 a c d rest ih =>
      have ha : a < 256 := hb a (by simp)
      have hc : c < 256 := hb c (by simp)
      have hd : d < 256 := hb d (by simp)
      have hrest : ∀ x ∈ rest, x < 256 := fun x hx => hb x (by simp [hx])
      simp [bytesToSextets, sextetsToBytes, ih hrest]
      omega

lemma takeWhile_append_all {α : Type} {p : α → Bool} {xs ys : List α}
    (h : ∀ x ∈ xs, p x = true) : (xs ++ ys).takeWhile p = xs ++ ys.takeWhile p := by
  induction xs with
  | nil => rfl
  | cons a l ih =>
      have ha := h a (by simp)
      simp [List.takeWhile_cons, ha, ih (fun x hx => h x (by simp [hx]))]

lemma filter_all_eq_self {α : Type} {p : α → Bool} {xs : List α}
    (h : ∀ x ∈ xs, p x = true) : xs.filter p = xs := by
  induction xs with
  | nil => rfl
  | cons a l ih =>
      have ha := h a (by simp)
      simp [List.filter_cons, ha, ih (fun x hx => h x (by simp [hx]))]

lemma takeWhile_replicate_pad (k : Nat) :
    (List.replicate k '=').takeWhile (fun c => c != '=') = [] := by
  cases k <;> rfl

lemma pyB64Decode_encodeNoPad (b : List Nat) (hb : ∀ x ∈ b, x < 256) :
    pyB64Decode (String.mk (b64EncodeNoPad b ++
      List.replicate ((4 - (b64EncodeNoPad b).length % 4) % 4) '=')) = .ok b := by
  have hS := bytesToSextets_lt b hb
  have hchars : ∀ c ∈ (bytesToSextets b).map sextetToChar, (isB64Char c || c == '=') = true := by
    intro c hc
    obtain ⟨s, hs, rfl⟩ := List.mem_map.mp hc
    rw [isB64Char_sextetToChar s (hS s hs)]
    rfl
  have hne : ∀ c ∈ (bytesToSextets b).map sextetToChar, (c != '=') = true := by
    intro c hc
    obtain ⟨s, hs, rfl⟩ := List.mem_map.mp hc
    exact sextetToChar_ne_pad s (hS s hs)
  have hpadchars : ∀ k, ∀ c ∈ List.replicate k '=', (isB64Char c || c == '=') = true := by
    intro k c hc
    rw [List.eq_of_mem_replicate hc]
    rfl
  unfold pyB64Decode b64EncodeNoPad
  dsimp only
  rw [List.filter_append, filter_all_eq_self hchars, filter_all_eq_self (hpadchars _),
    takeWhile_append_all hne, takeWhile_replicate_pad, List.append_nil]
  have hmod := bytesToSextets_len_mod b
  have hlen : ((bytesToSextets b).map sextetToChar).length = (bytesToSextets b).length :=
    List.length_map _ _
  rw [if_neg]
  · congr 1
    rw [List.map_map]
    have hid : (bytesToSextets b).map ((fun c => (charToSextet c).getD 0) ∘ sextetToChar) =
        (bytesToSextets b).map id :=
      List.map_congr_left (fun s hs => by
        simp only [Function.comp_apply, charToSextet_sextetToChar s (hS s hs), Option.getD_some,
          id_eq])
    rw [hid, List.map_id]
    exact sextets_roundtrip b hb
  · rw [Bool.or_eq_true, not_or]
    constructor
    · simp only [List.length_append, List.length_replicate, hlen, bne_iff_ne, ne_eq,
        Decidable.not_not]
      omega
    · simp only [hlen, beq_iff_eq]
      omega

lemma vmess_scheme_split (s : String) :
    splitAfterFirstSeq [':', '/', '/'] ("vmess://" ++ s).data = some s.data := rfl

/-- C6 counterexample: a Protocol B payload in the URL-safe base64
alphabet (the `-` sextet 62 produced by the `"~~~"` value) decodes
under the spec's URL-safe decoder to a JSON config with address `h`
and port 80, but `test_vmess_link` — which calls the
standard-alphabet `base64.b64decode` — discards the `-`, fails the
padding check, and declares the candidate dead with
`Invalid Base64 or JSON in link`; the same config in the standard
alphabet is accepted. -/
theorem vmess_urlsafe_payload_rejected :
    specUrlsafeB64Decode vmessPayloadW = some (strUtf8 vmessCfgW) ∧
      jsonParse vmessCfgW =
        some (.obj [("add", .str "h"), ("port", .num 80), ("v", .str "~~~")]) ∧
      vmessPayloadW.data.contains '-' = true ∧
      test_vmess_link envQuick ("vmess://" ++ vmessPayloadW) 5 =
        mkDead ("vmess://" ++ vmessPayloadW) "Invalid Base64 or JSON in link" ∧
      (test_vmess_link envQuick
          ("vmess://" ++ String.mk (b64EncodeNoPad (strUtf8 vmessCfgW))) 5).status = "alive" :=
  ⟨by decide, rfl, by decide, by decide, by decide⟩

/-- C6 amended: for every Protocol B candidate whose payload after the
scheme is base64 in the *standard* alphabet (`+` and `/`), possibly
with missing padding, encoding a JSON object, `test_vmess_link`
re-pads and decodes the payload and extracts the address, port, TLS
flag and optional server name from the decoded object
(`config.get("add")`, `int(config.get("port", 0))`,
`config.get("tls") in ("tls", "xtls")`, `config.get('sni', server)`).
Payload characters outside the standard alphabet — including the
URL-safe `-` and `_` — are discarded before decoding. -/
theorem vmess_standard_b64_payload_extracted (b : List Nat) (kvs : List (String × Jv))
    (hb : ∀ x ∈ b, x < 256)
    (hjson : jsonParse (String.mk (utf8DecodeIgnore b)) = some (.obj kvs)) :
    vmessParseStage ("vmess://" ++ String.mk (b64EncodeNoPad b)) = vmessExtract kvs := by
  unfold vmessParseStage
  rw [vmess_scheme_split]
  dsimp only
  rw [pyB64Decode_encodeNoPad b hb]
  dsimp only
  rw [hjson]

/-- Witness for the amended C6 at the concrete config
`{"add":"h","port":80,"v":"~~~"}`. -/
theorem vmess_standard_b64_payload_extracted_witness :
    vmessParseStage ("vmess://" ++ String.mk (b64EncodeNoPad (strUtf8 vmessCfgW))) =
      vmessExtract [("add", .str "h"), ("port", .num 80), ("v", .str "~~~")] :=
  vmess_standard_b64_payload_extracted (strUtf8 vmessCfgW)
    [("add", .str "h"), ("port", .num 80), ("v", .str "~~~")] (by decide) rfl
